import Mathlib

/-!
Verification of the resilient acquisition engine of the image/video fetcher
repository.  The circuit breaker and retry loop are embedded from
`video_sources_async.py`, the persistent store and rate limiter from
`video_database.py`, the download worker and manifest assembly from
`video_fetcher_pro.py`, and the cron parser and job scheduler from
`video_scheduler.py`.  Wall-clock instants are natural numbers (seconds);
the sources only ever compare differences of instants against timeouts.
-/

namespace ImageFetcher

/-! ## Circuit breaker (`video_sources_async.py`, class `CircuitBreaker`) -/

/-- The three breaker states, as in the `CircuitState` enum. -/
inductive CircuitState where
  | CLOSED
  | OPEN
  | HALF_OPEN
deriving DecidableEq, Repr

/-- The `CircuitBreaker` dataclass: configuration fields with their source
defaults, plus the mutable fields set in `__post_init__`.
`last_failure_time` is `none` until the first recorded failure. -/
structure CircuitBreaker where
  failure_threshold : Nat := 5
  recovery_timeout : Nat := 60
  half_open_max_calls : Nat := 3
  failure_count : Nat := 0
  last_failure_time : Option Nat := none
  state : CircuitState := CircuitState.CLOSED
  half_open_calls : Nat := 0
deriving DecidableEq, Repr

/-- Source `CircuitBreaker.call_succeeded`: zero the failure count; if half-open,
close the circuit and zero the half-open call counter. -/
def call_succeeded (cb : CircuitBreaker) : CircuitBreaker :=
  let cb1 := { cb with failure_count := 0 }
  if cb1.state = CircuitState.HALF_OPEN then
    { cb1 with state := CircuitState.CLOSED, half_open_calls := 0 }
  else cb1

/-- Source `CircuitBreaker.call_failed` at instant `now`: bump the failure count and
stamp the failure time; reopen from half-open, or open once the count reaches
the threshold. -/
def call_failed (cb : CircuitBreaker) (now : Nat) : CircuitBreaker :=
  let cb1 := { cb with failure_count := cb.failure_count + 1,
                       last_failure_time := some now }
  if cb1.state = CircuitState.HALF_OPEN then
    { cb1 with state := CircuitState.OPEN }
  else if cb1.failure_threshold ≤ cb1.failure_count then
    { cb1 with state := CircuitState.OPEN }
  else cb1

/-- Source `CircuitBreaker.can_attempt` at instant `now`.  The source mutates the
breaker in place; the embedding returns the decision together with the updated
breaker.  In reachable open states `last_failure_time` is always set, so the
`getD 0` default is never the deciding value. -/
def can_attempt (cb : CircuitBreaker) (now : Nat) : Bool × CircuitBreaker :=
  match cb.state with
  | CircuitState.CLOSED => (true, cb)
  | CircuitState.OPEN =>
      if cb.recovery_timeout ≤ now - cb.last_failure_time.getD 0 then
        (true, { cb with state := CircuitState.HALF_OPEN, half_open_calls := 0 })
      else (false, cb)
  | CircuitState.HALF_OPEN =>
      if cb.half_open_calls < cb.half_open_max_calls then
        (true, { cb with half_open_calls := cb.half_open_calls + 1 })
      else (false, cb)

/-! ## Retry with backoff (`AsyncVideoSource.retry_with_backoff`) -/

/-- Errors surfaced by the retry loop.  `breakerOpen` is the
"Circuit breaker open for ..." exception raised when `can_attempt` refuses;
`callError i` is an exception raised by the awaited call on attempt `i`;
`noAttempts` models `raise last_exception` when the loop never ran. -/
inductive RetryErr where
  | breakerOpen
  | callError (attempt : Nat)
  | noAttempts
deriving DecidableEq, Repr

/-- The body of `retry_with_backoff`.  `outcomes i = true` means awaiting the
wrapped call succeeds on attempt `i`.  The breaker-open exception is raised
inside the `try` block of the source, so it is caught by the same `except`
handler as a call failure and `call_failed` runs for it too.  Sleeping
between attempts does not change any state the claims mention, so the clock
stays at `now`. -/
def retryLoop (outcomes : Nat → Bool) (now : Nat) :
    CircuitBreaker → Nat → Nat → Option RetryErr → Except RetryErr Nat × CircuitBreaker
  | cb, _, 0, lastE =>
      (match lastE with
       | some e => Except.error e
       | none => Except.error RetryErr.noAttempts, cb)
  | cb, attempt, fuel + 1, _ =>
      let res := can_attempt cb now
      if res.1 then
        if outcomes attempt then
          (Except.ok attempt, call_succeeded res.2)
        else
          retryLoop outcomes now (call_failed res.2 now) (attempt + 1) fuel
            (some (RetryErr.callError attempt))
      else
        retryLoop outcomes now (call_failed res.2 now) (attempt + 1) fuel
          (some RetryErr.breakerOpen)

/-- Source `retry_with_backoff` with `max_retries` attempts starting from breaker
state `cb`. -/
def retry_with_backoff (cb : CircuitBreaker) (outcomes : Nat → Bool) (now : Nat)
    (max_retries : Nat) : Except RetryErr Nat × CircuitBreaker :=
  retryLoop outcomes now cb 0 max_retries none

/-- Iterated `call_failed` (all at the same instant). -/
def call_failed_iter (now : Nat) : Nat → CircuitBreaker → CircuitBreaker
  | 0, cb => cb
  | n + 1, cb => call_failed_iter now n (call_failed cb now)

/-- A breaker that has just opened: five recorded failures, the last at instant 0. -/
def openBreaker : CircuitBreaker :=
  { state := CircuitState.OPEN, failure_count := 5, last_failure_time := some 0 }

/-- A breaker sitting in the half-open state, with failures on record. -/
def halfOpenBreaker : CircuitBreaker :=
  { state := CircuitState.HALF_OPEN, failure_count := 4, last_failure_time := some 0 }

/-- A breaker with every field at its source default. -/
def defaultBreaker : CircuitBreaker := { }

/-! ## Download store (`video_database.py`, class `VideoDatabase`)

The `downloads` table is a list of rows; the schema declares
`url_hash TEXT UNIQUE NOT NULL`, so an `INSERT` whose hash collides with an
existing row is rejected by the engine and the transaction leaves the table
unchanged — the spec's taxonomy names this rejection `DuplicateURL`.
`hash_url` (SHA-256 hex in the source) enters as a parameter: the store's
behaviour depends only on it being a function of the URL. -/

/-- One row of the `downloads` table (the columns the claims touch). -/
structure DownloadRow where
  source : String
  theme : String
  url : String
  url_hash : String
  status : String
deriving DecidableEq, Repr

/-- Source `VideoDatabase.add_download`: insert a `pending` row keyed by the URL
hash; the `UNIQUE` constraint on `url_hash` rejects a second row with the
same hash. -/
def add_download (hash_url : String → String) (rows : List DownloadRow)
    (source theme url : String) : Except String (List DownloadRow) :=
  let h := hash_url url
  if rows.any (fun r => r.url_hash == h) then Except.error "DuplicateURL"
  else Except.ok (rows ++ [⟨source, theme, url, h, "pending"⟩])

/-! ## Rate limiter (`VideoDatabase.check_rate_limit`) -/

/-- One row of the `rate_limits` table. -/
structure RateLimitRow where
  requests_count : Nat
  window_start : Nat
  last_request : Option Nat
deriving DecidableEq, Repr

/-- Source `VideoDatabase.check_rate_limit` at instant `now`.  `row = none` models a
provider not yet present: the `INSERT OR IGNORE` creates its row with count 0
and `window_start = now`.  `elapsed` is the seconds since `window_start`;
the window resets only when `elapsed` strictly exceeds `window_seconds`. -/
def check_rate_limit (row : Option RateLimitRow) (now : Nat)
    (max_requests window_seconds : Nat) : Bool × RateLimitRow :=
  let row := row.getD { requests_count := 0, window_start := now, last_request := none }
  let elapsed := now - row.window_start
  if window_seconds < elapsed then
    (true, { requests_count := 1, window_start := now, last_request := some now })
  else if max_requests ≤ row.requests_count then
    (false, row)
  else
    (true, { row with requests_count := row.requests_count + 1, last_request := some now })

/-- Run `check_rate_limit` over a list of call instants, threading the row. -/
def run_rate_limit (row : Option RateLimitRow) (max_requests window_seconds : Nat) :
    List Nat → List Bool × Option RateLimitRow
  | [] => ([], row)
  | t :: ts =>
      let r := check_rate_limit row t max_requests window_seconds
      let rest := run_rate_limit (some r.2) max_requests window_seconds ts
      (r.1 :: rest.1, rest.2)

/-! ## Download worker (`video_fetcher_pro.py`, `download_video_async`)

The worker is embedded as a function of the HTTP response it observes (status,
declared sizes, streamed chunk sizes), the number of bytes already on disk,
and the outcomes of the validation probe and the content-duplicate lookup.
The result records the boolean the coroutine returns, the terminal status
written to the store, and the bytes left on disk. -/

/-- Terminal status written by `update_download`. -/
inductive DlStatus where
  | completed
  | failed (msg : String)
  | skipped (msg : String)
deriving DecidableEq, Repr

/-- The observed HTTP response.  `content_length` is
`int(headers.get('Content-Length', 0))`, so an absent header is 0;
`content_range_total` is the total parsed from `Content-Range` when the
header contains a slash; `chunks` are the sizes of the streamed chunks. -/
structure DlResponse where
  status : Nat
  content_length : Nat
  content_range_total : Option Nat
  chunks : List Nat
deriving DecidableEq, Repr

/-- Result of one download task. -/
structure DlOutcome where
  success : Bool
  db_status : Option DlStatus
  bytes_on_disk : Nat
deriving DecidableEq, Repr

/-- Bytes kept after the resume handshake: a partial file is discarded when
the server does not answer a range request with partial content. -/
def resumed_bytes (existing_bytes : Nat) (resp : DlResponse) : Nat :=
  if 0 < existing_bytes ∧ resp.status ≠ 206 then 0 else existing_bytes

/-- The `total_size` the worker derives from the response headers. -/
def declared_total_size (resp : DlResponse) (downloaded : Nat) : Nat :=
  if resp.status = 206 then
    match resp.content_range_total with
    | some t => t
    | none => resp.content_length + downloaded
  else resp.content_length

/-- Source `VideoFetcherPro.download_video_async`, for `max_file_size_mb` from the
configuration (default 100).  The single size check compares the declared
`total_size` against the limit before the streaming loop; the loop itself
writes every received chunk. -/
def download_video_async (max_file_size_mb existing_bytes : Nat) (resp : DlResponse)
    (valid : Bool) (is_dup_file : Bool) : DlOutcome :=
  let max_size := max_file_size_mb * 1024 * 1024
  if 0 < existing_bytes ∧ resp.status = 416 then
    { success := true, db_status := none, bytes_on_disk := existing_bytes }
  else
    let downloaded := resumed_bytes existing_bytes resp
    if 400 ≤ resp.status then
      { success := false, db_status := some (DlStatus.failed "http error"),
        bytes_on_disk := downloaded }
    else
      let total_size := declared_total_size resp downloaded
      if max_size < total_size then
        { success := false, db_status := some (DlStatus.failed "File too large"),
          bytes_on_disk := downloaded }
      else
        let final := downloaded + resp.chunks.sum
        if valid = false then
          { success := false, db_status := some (DlStatus.failed "Validation failed"),
            bytes_on_disk := 0 }
        else if is_dup_file then
          { success := false, db_status := some (DlStatus.skipped "Duplicate file"),
            bytes_on_disk := 0 }
        else
          { success := true, db_status := some DlStatus.completed, bytes_on_disk := final }

/-- A response whose declared length is absent (0) but whose body is one byte
past the 100 MB default limit. -/
def oversizedResponse : DlResponse :=
  { status := 200, content_length := 0, content_range_total := none,
    chunks := [104857601] }

/-! ## Manifest assembly (`video_fetcher_pro.py`, `fetch_and_process_async`)

The run builds a `metadata` dictionary up front, appends one `videos` entry
per successful download, and dumps that dictionary — and nothing else — to
`metadata.json`. -/

/-- A JSON value, enough to mirror the dumped dictionary. -/
inductive Json where
  | str (s : String)
  | num (n : Int)
  | arr (xs : List Json)
  | obj (kvs : List (String × Json))
  | null

/-- The fields of a search result the manifest entry reads. -/
structure MediaCandidate where
  url : String
  url_medium : Option String
  source : String
  user : String
  width : Nat
  height : Nat
  duration : Nat

/-- Python `f"{n:03d}"`. -/
def pad3 (n : Nat) : String :=
  if n < 10 then "00" ++ toString n
  else if n < 100 then "0" ++ toString n
  else toString n

/-- The entry appended to `metadata["videos"]` for a successful download at
enumeration index `idx`; the downloaded URL prefers `url_medium`. -/
def manifest_video_entry (safe_theme : String) (idx : Nat) (v : MediaCandidate) :
    List (String × Json) :=
  [("filename", Json.str (safe_theme ++ "_" ++ pad3 (idx + 1) ++ ".mp4")),
   ("source", Json.str v.source),
   ("user", Json.str v.user),
   ("url", Json.str (v.url_medium.getD v.url)),
   ("width", Json.num (v.width : Int)),
   ("height", Json.num (v.height : Int)),
   ("duration", Json.num (v.duration : Int))]

/-- The dictionary dumped to `metadata.json`: the keys written at creation,
with `videos` holding one entry per successful download (`results` pairs each
dispatched candidate with whether its download returned `True`). -/
def build_manifest (theme timestamp sources quality safe_theme : String)
    (filters : List (String × Json)) (results : List (MediaCandidate × Bool)) :
    List (String × Json) :=
  [("theme", Json.str theme),
   ("timestamp", Json.str timestamp),
   ("sources", Json.str sources),
   ("quality", Json.str quality),
   ("filters", Json.obj filters),
   ("videos", Json.arr ((results.enum).filterMap (fun p =>
      if p.2.2 then some (Json.obj (manifest_video_entry safe_theme p.1 p.2.1)) else none)))]

/-- A concrete candidate for the counterexample run. -/
def sampleCandidate : MediaCandidate :=
  { url := "https://cdn.example/v1.mp4", url_medium := none, source := "pexels",
    user := "ann", width := 1920, height := 1080, duration := 12 }

/-! ## Cron parser and scheduler (`video_scheduler.py`)

Datetimes carry explicit calendar fields; Python's `datetime.weekday()` is
the proleptic-Gregorian day number with Monday = 0, recovered here from the
day ordinal (0001-01-01, ordinal 1, is a Monday). -/

/-- A wall-clock datetime (microseconds, always zeroed by the scanner, are
omitted). -/
structure DateTime where
  year : Nat
  month : Nat
  day : Nat
  hour : Nat
  minute : Nat
  second : Nat
deriving DecidableEq, Repr

/-- Gregorian leap year. -/
def isLeap (y : Nat) : Bool :=
  (y % 4 == 0 && y % 100 != 0) || y % 400 == 0

/-- Days in a month of the proleptic Gregorian calendar. -/
def daysInMonth (y m : Nat) : Nat :=
  if m = 2 then (if isLeap y then 29 else 28)
  else if m = 4 ∨ m = 6 ∨ m = 9 ∨ m = 11 then 30
  else 31

/-- Days in the months of year `y` strictly before month `m`. -/
def daysBeforeMonth (y m : Nat) : Nat :=
  ((List.range' 1 (m - 1)).map (daysInMonth y)).sum

/-- Python `datetime.date.toordinal()`: 0001-01-01 is day 1. -/
def toOrdinal (y m d : Nat) : Nat :=
  365 * (y - 1) + (y - 1) / 4 - (y - 1) / 100 + (y - 1) / 400 + daysBeforeMonth y m + d

/-- Python `datetime.weekday()`: Monday = 0 through Sunday = 6. -/
def DateTime.weekday (dt : DateTime) : Nat :=
  (toOrdinal dt.year dt.month dt.day + 6) % 7

/-- Seconds since the start of 0001-01-01, for Python's field-lexicographic
datetime comparison (they agree on valid dates). -/
def DateTime.toSeconds (dt : DateTime) : Nat :=
  (toOrdinal dt.year dt.month dt.day - 1) * 86400 + dt.hour * 3600 + dt.minute * 60 + dt.second

/-- Python `dt + timedelta(minutes=1)` with calendar rollover (the scanner only adds
minutes to second-zero datetimes). -/
def addOneMinute (dt : DateTime) : DateTime :=
  if dt.minute + 1 < 60 then { dt with minute := dt.minute + 1 }
  else if dt.hour + 1 < 24 then { dt with minute := 0, hour := dt.hour + 1 }
  else if dt.day + 1 ≤ daysInMonth dt.year dt.month then
    { dt with minute := 0, hour := 0, day := dt.day + 1 }
  else if dt.month + 1 ≤ 12 then
    { dt with minute := 0, hour := 0, day := 1, month := dt.month + 1 }
  else { dt with minute := 0, hour := 0, day := 1, month := 1, year := dt.year + 1 }

/-- Python `dt + timedelta(days=1)` with calendar rollover. -/
def addOneDay (dt : DateTime) : DateTime :=
  if dt.day + 1 ≤ daysInMonth dt.year dt.month then { dt with day := dt.day + 1 }
  else if dt.month + 1 ≤ 12 then { dt with day := 1, month := dt.month + 1 }
  else { dt with day := 1, month := 1, year := dt.year + 1 }

/-- Python `dt + timedelta(days=n)`. -/
def addDays (dt : DateTime) : Nat → DateTime
  | 0 => dt
  | n + 1 => addDays (addOneDay dt) n

/-- Python `dt + timedelta(minutes=n)`. -/
def addMinutes (dt : DateTime) : Nat → DateTime
  | 0 => dt
  | n + 1 => addMinutes (addOneMinute dt) n

/-- Python `after.replace(second=0, microsecond=0)`. -/
def truncToMinute (dt : DateTime) : DateTime := { dt with second := 0 }

/-- The five parsed cron fields. -/
structure CronDict where
  minute : String
  hour : String
  day : String
  month : String
  weekday : String
deriving DecidableEq, Repr

/-- Split a character list at every character satisfying `p`, keeping empty
segments — the char-level semantics of Python's `str.split(sep)` for a
one-character separator (with `p` testing equality) and the building block
for no-argument `str.split()`. -/
def splitOnPred (p : Char → Bool) : List Char → List (List Char)
  | [] => [[]]
  | c :: cs =>
      let rest := splitOnPred p cs
      if p c then [] :: rest
      else match rest with
        | r :: rs => (c :: r) :: rs
        | [] => [[c]]

/-- Python `s.split(sep)` for a one-character separator. -/
def strSplitOn (sep : Char) (s : String) : List String :=
  (splitOnPred (fun c => c == sep) s.data).map (fun l => String.mk l)

/-- Python `sep in s` for one character. -/
def strContains (s : String) (c : Char) : Bool :=
  s.data.contains c

/-- The numeric value of a decimal digit. -/
def charDigit? (c : Char) : Option Nat :=
  if '0' ≤ c ∧ c ≤ '9' then some (c.toNat - 48) else none

def parseNatAux : List Char → Nat → Option Nat
  | [], acc => some acc
  | c :: cs, acc =>
      match charDigit? c with
      | some d => parseNatAux cs (acc * 10 + d)
      | none => none

/-- Python `int(s)` on the non-negative decimal strings cron fields hold;
`none` where `int()` would raise `ValueError`. -/
def parseNat (s : String) : Option Nat :=
  match s.data with
  | [] => none
  | l => parseNatAux l 0

/-- Source `CronParser.parse`: `expression.strip().split()` — whitespace runs
separate, leading/trailing whitespace drops out with the empty segments —
must give exactly five fields, else the `ValueError` message. -/
def CronParser.parse (expression : String) : Except String CronDict :=
  let parts := ((splitOnPred Char.isWhitespace expression.data).filter
      (fun l => !l.isEmpty)).map (fun l => String.mk l)
  match parts with
  | [a, b, c, d, e] => Except.ok ⟨a, b, c, d, e⟩
  | _ => Except.error "Invalid cron expression (must have 5 fields)"

/-- Source `matches_field` inside `CronParser.matches`.  Step fields `prefix/N`
compare `actual % N`; list fields compare decimal strings; range fields
compare bounds.  (On malformed numerals the source raises from `int()`;
this embedding defaults them — no claim exercises a malformed field.) -/
def matches_field (field_value : String) (actual_value : Nat) : Bool :=
  if field_value = "*" then true
  else if strContains field_value '/' then
    match strSplitOn '/' field_value with
    | [_, step] => actual_value % ((parseNat step).getD 1) == 0
    | _ => false
  else if strContains field_value ',' then
    (strSplitOn ',' field_value).contains (Nat.repr actual_value)
  else if strContains field_value '-' then
    match strSplitOn '-' field_value with
    | [a, b] => decide ((parseNat a).getD 0 ≤ actual_value ∧ actual_value ≤ (parseNat b).getD 0)
    | _ => false
  else parseNat field_value == some actual_value

/-- Source `CronParser.matches`: all five fields match; the fifth is checked against
`dt.weekday()`. -/
def CronParser.matches (cron_dict : CronDict) (dt : DateTime) : Bool :=
  matches_field cron_dict.minute dt.minute &&
  matches_field cron_dict.hour dt.hour &&
  matches_field cron_dict.day dt.day &&
  matches_field cron_dict.month dt.month &&
  matches_field cron_dict.weekday dt.weekday

/-- The minute-by-minute scan of `CronParser.next_run`, with the one-year
fuel `365 * 24 * 60` made explicit. -/
def nextRunLoop (cron_dict : CronDict) : Nat → DateTime → Option DateTime
  | 0, _ => none
  | fuel + 1, check_time =>
      if CronParser.matches cron_dict check_time then some check_time
      else nextRunLoop cron_dict fuel (addOneMinute check_time)

/-- Source `CronParser.next_run`: parse, then scan from the first minute boundary
after `after`; exhaustion raises. -/
def CronParser.next_run (expression : String) (after : DateTime) : Except String DateTime :=
  match CronParser.parse expression with
  | Except.error e => Except.error e
  | Except.ok cron_dict =>
      match nextRunLoop cron_dict (365 * 24 * 60) (addOneMinute (truncToMinute after)) with
      | some t => Except.ok t
      | none => Except.error "Could not find next run time within 1 year"

/-- The `ScheduleType` enum. -/
inductive ScheduleType where
  | ONCE
  | DAILY
  | WEEKLY
  | MONTHLY
  | CRON
deriving DecidableEq, Repr

/-- The `ScheduledJob` dataclass with its source defaults. -/
structure ScheduledJob where
  id : String
  theme : String
  count : Nat
  sources : String
  quality : String
  filters : List (String × String) := []
  schedule_type : ScheduleType := ScheduleType.ONCE
  schedule_time : Option DateTime := none
  cron_expression : Option String := none
  enabled : Bool := true
  last_run : Option DateTime := none
  next_run : Option DateTime := none
  runs : Nat := 0
  failures : Nat := 0
  max_retries : Nat := 3
deriving DecidableEq, Repr

/-- Source `VideoScheduler._calculate_next_run` at wall-clock `now`.  The cron
branch wraps `CronParser.next_run` in try/except: any parse or scan error is
logged and swallowed, yielding `None`. -/
def calculate_next_run (job : ScheduledJob) (now : DateTime) : Option DateTime :=
  match job.schedule_type with
  | ScheduleType.ONCE =>
      match job.schedule_time with
      | some st => if now.toSeconds < st.toSeconds then some st else none
      | none => none
  | ScheduleType.DAILY =>
      match job.schedule_time with
      | some st =>
          let next1 := if st.toSeconds ≤ now.toSeconds then addDays now 1 else st
          some { next1 with hour := st.hour, minute := st.minute }
      | none => some (addDays now 1)
  | ScheduleType.WEEKLY => some (addDays now 7)
  | ScheduleType.MONTHLY =>
      let next0 := addDays { now with day := 1 } 32
      some { next0 with day := 1 }
  | ScheduleType.CRON =>
      match job.cron_expression with
      | some e => (CronParser.next_run e now).toOption
      | none => none

/-- Source `VideoScheduler.add_job`: generate an id if absent, compute the next run,
store the job (dict assignment keyed by id, modelled as replace-or-append)
and return the id.  There is no error channel: the function always stores
and returns. -/
def add_job (jobs : List (String × ScheduledJob)) (job : ScheduledJob)
    (now_epoch : Nat) (now : DateTime) : List (String × ScheduledJob) × String :=
  let jid := if job.id = "" then
      "job_" ++ toString now_epoch ++ "_" ++ toString jobs.length
    else job.id
  let job1 := { job with id := jid }
  let job2 := { job1 with next_run := calculate_next_run job1 now }
  ((jobs.filter (fun p => p.1 != jid)) ++ [(jid, job2)], jid)

/-- Source `VideoScheduler._should_run` (its side effects on auto-disable do not
change the returned decision). -/
def should_run (job : ScheduledJob) (now : DateTime) : Bool :=
  if job.enabled = false then false
  else
    match job.next_run with
    | none => false
    | some nr =>
        if job.max_retries ≤ job.failures then false
        else decide (nr.toSeconds ≤ now.toSeconds)

/-- A cron job whose expression has three fields instead of five. -/
def badCronJob : ScheduledJob :=
  { id := "j1", theme := "cats", count := 1, sources := "all", quality := "hd",
    schedule_type := ScheduleType.CRON, cron_expression := some "0 2 *" }

/-! ## Theorems -/

theorem call_failed_iter_succ (now n : Nat) (cb : CircuitBreaker) :
    call_failed_iter now (n + 1) cb = call_failed_iter now n (call_failed cb now) := rfl

theorem call_failed_failure_count (cb : CircuitBreaker) (now : Nat) :
    (call_failed cb now).failure_count = cb.failure_count + 1 := by
  simp only [call_failed]
  split
  · rfl
  · split <;> rfl

theorem call_failed_last_failure_time (cb : CircuitBreaker) (now : Nat) :
    (call_failed cb now).last_failure_time = some now := by
  simp only [call_failed]
  split
  · rfl
  · split <;> rfl

theorem call_failed_recovery_timeout (cb : CircuitBreaker) (now : Nat) :
    (call_failed cb now).recovery_timeout = cb.recovery_timeout := by
  simp only [call_failed]
  split
  · rfl
  · split <;> rfl

theorem call_failed_state_of_open (cb : CircuitBreaker) (now : Nat)
    (hs : cb.state = CircuitState.OPEN) :
    (call_failed cb now).state = CircuitState.OPEN := by
  simp only [call_failed]
  split
  · next h => simp [hs] at h
  · split
    · rfl
    · exact hs

theorem call_failed_closed_of_lt (cb : CircuitBreaker) (now : Nat)
    (hs : cb.state = CircuitState.CLOSED)
    (hlt : cb.failure_count + 1 < cb.failure_threshold) :
    call_failed cb now = { cb with failure_count := cb.failure_count + 1,
                                   last_failure_time := some now } := by
  simp only [call_failed]
  rw [if_neg (by simp [hs]), if_neg (by simp; omega)]

theorem call_failed_opens_of_ge (cb : CircuitBreaker) (now : Nat)
    (hs : cb.state = CircuitState.CLOSED)
    (hge : cb.failure_threshold ≤ cb.failure_count + 1) :
    (call_failed cb now).state = CircuitState.OPEN := by
  simp only [call_failed]
  rw [if_neg (by simp [hs]), if_pos (by simpa using hge)]

theorem call_failed_failure_threshold (cb : CircuitBreaker) (now : Nat) :
    (call_failed cb now).failure_threshold = cb.failure_threshold := by
  simp only [call_failed]
  split
  · rfl
  · split <;> rfl

theorem call_failed_iter_failure_threshold (now : Nat) (n : Nat) :
    ∀ cb : CircuitBreaker,
      (call_failed_iter now n cb).failure_threshold = cb.failure_threshold := by
  induction n with
  | zero => intro cb; rfl
  | succ n ih =>
      intro cb
      rw [call_failed_iter_succ, ih, call_failed_failure_threshold]

theorem call_failed_iter_failure_count (now : Nat) (n : Nat) :
    ∀ cb : CircuitBreaker,
      (call_failed_iter now n cb).failure_count = cb.failure_count + n := by
  induction n with
  | zero => intro cb; rfl
  | succ n ih =>
      intro cb
      show (call_failed_iter now n (call_failed cb now)).failure_count = _
      rw [ih, call_failed_failure_count]
      omega

theorem call_failed_iter_state_of_open (now : Nat) (n : Nat) :
    ∀ cb : CircuitBreaker, cb.state = CircuitState.OPEN →
      (call_failed_iter now n cb).state = CircuitState.OPEN := by
  induction n with
  | zero => intro cb hs; exact hs
  | succ n ih =>
      intro cb hs
      exact ih _ (call_failed_state_of_open cb now hs)

theorem call_failed_iter_add (now a b : Nat) :
    ∀ cb : CircuitBreaker,
      call_failed_iter now (a + b) cb = call_failed_iter now b (call_failed_iter now a cb) := by
  induction a with
  | zero => intro cb; simp [call_failed_iter]
  | succ a ih =>
      intro cb
      have h : a + 1 + b = (a + b) + 1 := by omega
      rw [h]
      show call_failed_iter now (a + b) (call_failed cb now) = _
      rw [ih]
      rfl

theorem call_failed_iter_closed (now : Nat) (n : Nat) :
    ∀ cb : CircuitBreaker, cb.state = CircuitState.CLOSED →
      cb.failure_count + n < cb.failure_threshold →
      (call_failed_iter now n cb).state = CircuitState.CLOSED ∧
      (call_failed_iter now n cb).failure_count = cb.failure_count + n := by
  induction n with
  | zero => intro cb hs _; exact ⟨hs, rfl⟩
  | succ n ih =>
      intro cb hs hn
      rw [call_failed_iter_succ, call_failed_closed_of_lt cb now hs (by omega)]
      have := ih { cb with failure_count := cb.failure_count + 1,
                           last_failure_time := some now } hs (by simp; omega)
      refine ⟨this.1, ?_⟩
      rw [this.2]
      simp
      omega

/-- C9: `call_succeeded` zeroes the failure count in every state, and from a
closed breaker with zero failures, iterated `call_failed` opens the breaker
exactly when the number of consecutive failures reaches `failure_threshold`. -/
theorem breaker_success_resets_and_threshold_opens (cb : CircuitBreaker) (now n : Nat)
    (hs : cb.state = CircuitState.CLOSED)
    (hc : cb.failure_count = 0)
    (ht : 1 ≤ cb.failure_threshold) :
    (∀ c : CircuitBreaker, (call_succeeded c).failure_count = 0) ∧
    ((call_failed_iter now n cb).state = CircuitState.OPEN ↔ cb.failure_threshold ≤ n) := by
  constructor
  · intro c
    simp only [call_succeeded]
    split
    · rfl
    · rfl
  · constructor
    · intro hopen
      by_contra hlt
      have := (call_failed_iter_closed now n cb hs (by omega)).1
      rw [this] at hopen
      exact absurd hopen (by simp)
    · intro hge
      -- run threshold - 1 failures staying closed, one more to open, rest stay open
      obtain ⟨m, hm⟩ : ∃ m, n = (cb.failure_threshold - 1) + 1 + m := ⟨n - cb.failure_threshold, by omega⟩
      subst hm
      rw [call_failed_iter_add, call_failed_iter_add]
      have hcl := call_failed_iter_closed now (cb.failure_threshold - 1) cb hs (by omega)
      apply call_failed_iter_state_of_open
      show (call_failed _ now).state = CircuitState.OPEN
      apply call_failed_opens_of_ge _ now hcl.1
      rw [hcl.2, call_failed_iter_failure_threshold]
      omega

/-- C2 counterexample: a single success while half-open already closes the
breaker (contradicting "closes only after `half_open_max_calls` consecutive
successes"), and once the recovery timeout has elapsed the breaker permits
four consecutive trial calls, not `half_open_max_calls = 3`: the call that
performs the open-to-half-open transition returns `true` without touching
the half-open counter. -/
theorem circuit_breaker_half_open_cx :
    ((call_succeeded halfOpenBreaker).state = CircuitState.CLOSED) ∧
    (let r1 := can_attempt openBreaker 60
     let r2 := can_attempt r1.2 60
     let r3 := can_attempt r2.2 60
     let r4 := can_attempt r3.2 60
     let r5 := can_attempt r4.2 60
     r1.1 = true ∧ r2.1 = true ∧ r3.1 = true ∧ r4.1 = true ∧ r5.1 = false) := by
  decide

/-- C2 amended: once `recovery_timeout` has elapsed since the last failure,
`can_attempt` moves the breaker to half-open (trial counter zeroed) and
returns `true` without counting that call; while half-open, each further
`can_attempt` returns `true` and increments the counter while it is below
`half_open_max_calls`, and returns `false` once it reaches it (so
`half_open_max_calls + 1` trial calls are permitted in total); any failure
while half-open immediately reopens the breaker; a single success while
half-open closes it and zeroes both the failure count and the trial
counter. -/
theorem circuit_breaker_half_open_behaviour (cb : CircuitBreaker) (now t : Nat)
    (hs : cb.state = CircuitState.OPEN)
    (hl : cb.last_failure_time = some t)
    (hr : cb.recovery_timeout ≤ now - t) :
    (can_attempt cb now =
      (true, { cb with state := CircuitState.HALF_OPEN, half_open_calls := 0 })) ∧
    (∀ c : CircuitBreaker, c.state = CircuitState.HALF_OPEN →
      c.half_open_calls < c.half_open_max_calls →
      can_attempt c now = (true, { c with half_open_calls := c.half_open_calls + 1 })) ∧
    (∀ c : CircuitBreaker, c.state = CircuitState.HALF_OPEN →
      c.half_open_max_calls ≤ c.half_open_calls →
      can_attempt c now = (false, c)) ∧
    (∀ c : CircuitBreaker, c.state = CircuitState.HALF_OPEN →
      (call_failed c now).state = CircuitState.OPEN) ∧
    (∀ c : CircuitBreaker, c.state = CircuitState.HALF_OPEN →
      call_succeeded c =
        { c with failure_count := 0, state := CircuitState.CLOSED, half_open_calls := 0 }) := by
  refine ⟨?_, ?_, ?_, ?_, ?_⟩
  · simp only [can_attempt, hs, hl]
    rw [if_pos (by simpa using hr)]
  · intro c hcs hlt
    simp only [can_attempt, hcs]
    rw [if_pos hlt]
  · intro c hcs hge
    simp only [can_attempt, hcs]
    rw [if_neg (by omega)]
  · intro c hcs
    simp only [call_failed]
    rw [if_pos (by simpa using hcs)]
  · intro c hcs
    simp only [call_succeeded]
    rw [if_pos (by simpa using hcs)]

/-- Witness for `circuit_breaker_half_open_behaviour` at a concrete open
breaker whose recovery timeout has just elapsed. -/
theorem circuit_breaker_half_open_behaviour_witness :
    can_attempt openBreaker 60 =
      (true, { openBreaker with state := CircuitState.HALF_OPEN, half_open_calls := 0 }) :=
  (circuit_breaker_half_open_behaviour openBreaker 60 0 rfl rfl (by decide)).1

/-- C3 counterexample: with the breaker open and the recovery timeout not yet
elapsed, `retry_with_backoff` with `max_retries = 3` does not fail after a
single breaker-rejected attempt: it loops through all three attempts, and
every breaker-rejected attempt is recorded on the breaker via `call_failed`,
raising the failure count from 5 to 8. -/
theorem retry_breaker_open_cx :
    (retry_with_backoff openBreaker (fun _ => true) 10 3).1
      = Except.error RetryErr.breakerOpen ∧
    (retry_with_backoff openBreaker (fun _ => true) 10 3).2.failure_count = 8 := by
  exact ⟨rfl, rfl⟩

theorem retryLoop_rejected (outcomes : Nat → Bool) (now : Nat) (fuel : Nat) :
    ∀ (cb : CircuitBreaker) (attempt t : Nat),
      cb.state = CircuitState.OPEN →
      cb.last_failure_time = some t →
      now - t < cb.recovery_timeout →
      retryLoop outcomes now cb attempt fuel (some RetryErr.breakerOpen) =
        (Except.error RetryErr.breakerOpen, call_failed_iter now fuel cb) := by
  induction fuel with
  | zero => intro cb attempt t _ _ _; rfl
  | succ fuel ih =>
      intro cb attempt t hs hl hr
      have hcan : can_attempt cb now = (false, cb) := by
        simp only [can_attempt, hs, hl]
        rw [if_neg (by simp; omega)]
      show (if (can_attempt cb now).1 then _ else _) = _
      rw [hcan]
      simp only []
      exact ih (call_failed cb now) (attempt + 1) now
        (call_failed_state_of_open cb now hs)
        (call_failed_last_failure_time cb now)
        (by rw [call_failed_recovery_timeout]; omega)

/-- C3 amended: when `can_attempt` is `false`, the "breaker open" exception is
raised inside the `try` block of `retry_with_backoff`, so it is caught like
any call failure: it consumes one of the `max_retries` attempts and is
recorded on the breaker via `call_failed` (incrementing the failure count and
refreshing the failure time).  If the breaker stays rejecting it is the
breaker-open error, not an immediate fail-fast, that is surfaced only after
all `max_retries` attempts, with the failure count grown by `max_retries`. -/
theorem retry_breaker_open_consumes_retries (cb : CircuitBreaker)
    (outcomes : Nat → Bool) (now t n : Nat)
    (hs : cb.state = CircuitState.OPEN)
    (hl : cb.last_failure_time = some t)
    (hr : now - t < cb.recovery_timeout)
    (hn : 0 < n) :
    (retry_with_backoff cb outcomes now n).1 = Except.error RetryErr.breakerOpen ∧
    (retry_with_backoff cb outcomes now n).2.failure_count = cb.failure_count + n ∧
    (retry_with_backoff cb outcomes now n).2.state = CircuitState.OPEN := by
  obtain ⟨m, rfl⟩ : ∃ m, n = m + 1 := ⟨n - 1, by omega⟩
  have hcan : can_attempt cb now = (false, cb) := by
    simp only [can_attempt, hs, hl]
    rw [if_neg (by simp; omega)]
  have hbody : retry_with_backoff cb outcomes now (m + 1) =
      (Except.error RetryErr.breakerOpen, call_failed_iter now m (call_failed cb now)) := by
    show (if (can_attempt cb now).1 then _ else _) = _
    rw [hcan]
    simp only []
    exact retryLoop_rejected outcomes now m (call_failed cb now) 1 now
      (call_failed_state_of_open cb now hs)
      (call_failed_last_failure_time cb now)
      (by rw [call_failed_recovery_timeout]; omega)
  rw [hbody]
  refine ⟨rfl, ?_, ?_⟩
  · rw [call_failed_iter_failure_count, call_failed_failure_count]
    omega
  · exact call_failed_iter_state_of_open now m _ (call_failed_state_of_open cb now hs)

/-- Witness for `retry_breaker_open_consumes_retries` on a concrete open
breaker. -/
theorem retry_breaker_open_consumes_retries_witness :
    (retry_with_backoff openBreaker (fun _ => false) 10 2).1
      = Except.error RetryErr.breakerOpen ∧
    (retry_with_backoff openBreaker (fun _ => false) 10 2).2.failure_count =
      openBreaker.failure_count + 2 ∧
    (retry_with_backoff openBreaker (fun _ => false) 10 2).2.state = CircuitState.OPEN :=
  retry_breaker_open_consumes_retries openBreaker
    (fun _ => false) 10 0 2 rfl rfl (by decide) (by decide)

/-- Witness for `breaker_success_resets_and_threshold_opens` on a fresh
breaker with the default threshold 5 and 5 consecutive failures. -/
theorem breaker_success_resets_and_threshold_opens_witness :
    (∀ c : CircuitBreaker, (call_succeeded c).failure_count = 0) ∧
    ((call_failed_iter 7 5 defaultBreaker).state = CircuitState.OPEN ↔
      defaultBreaker.failure_threshold ≤ 5) :=
  breaker_success_resets_and_threshold_opens defaultBreaker 7 5 rfl rfl (by decide)

/-- C1: reserving the same URL twice yields exactly one persisted row — in
`pending` state, hence pending/completed over its lifetime — and one
`DuplicateURL` rejection for the second call; and the store never holds two
rows with the same url-hash: `add_download` preserves the no-duplicate-hash
invariant. -/
theorem add_download_url_unique (hash_url : String → String)
    (rows : List DownloadRow) (s t u s2 t2 : String)
    (hfresh : ∀ r ∈ rows, r.url_hash ≠ hash_url u)
    (hnodup : (rows.map DownloadRow.url_hash).Nodup) :
    ∃ rows1, add_download hash_url rows s t u = Except.ok rows1 ∧
      (rows1.filter (fun r => r.url_hash == hash_url u)).length = 1 ∧
      (∀ r ∈ rows1, r.url_hash = hash_url u → r.status = "pending") ∧
      add_download hash_url rows1 s2 t2 u = Except.error "DuplicateURL" ∧
      (rows1.map DownloadRow.url_hash).Nodup ∧
      (∀ (rows2 rows3 : List DownloadRow) (s3 t3 u3 : String),
        (rows2.map DownloadRow.url_hash).Nodup →
        add_download hash_url rows2 s3 t3 u3 = Except.ok rows3 →
        (rows3.map DownloadRow.url_hash).Nodup) := by
  have hany : rows.any (fun r => r.url_hash == hash_url u) = false := by
    rw [List.any_eq_false]
    intro r hr
    simpa using hfresh r hr
  refine ⟨rows ++ [⟨s, t, u, hash_url u, "pending"⟩], ?_, ?_, ?_, ?_, ?_, ?_⟩
  · simp only [add_download, hany]
    rfl
  · rw [List.filter_append]
    have h1 : rows.filter (fun r => r.url_hash == hash_url u) = [] := by
      rw [List.filter_eq_nil_iff]
      intro r hr
      simpa using hfresh r hr
    rw [h1]
    simp
  · intro r hr hu
    rcases List.mem_append.mp hr with h | h
    · exact absurd hu (hfresh r h)
    · simp only [List.mem_singleton] at h
      subst h
      rfl
  · simp only [add_download]
    rw [if_pos]
    rw [List.any_eq_true]
    exact ⟨⟨s, t, u, hash_url u, "pending"⟩, by simp⟩
  · rw [List.map_append, List.nodup_append]
    refine ⟨hnodup, List.nodup_singleton _, ?_⟩
    intro x hx
    simp only [List.map_cons, List.map_nil, List.mem_singleton]
    intro hx1
    subst hx1
    obtain ⟨r, hr, hru⟩ := List.mem_map.mp hx
    exact hfresh r hr hru
  · intro rows2 rows3 s3 t3 u3 hnd hadd
    simp only [add_download] at hadd
    by_cases hc : rows2.any (fun r => r.url_hash == hash_url u3) = true
    · rw [if_pos hc] at hadd
      exact absurd hadd (by simp)
    · rw [if_neg hc] at hadd
      obtain rfl : rows2 ++ [⟨s3, t3, u3, hash_url u3, "pending"⟩] = rows3 := by
        simpa using hadd
      rw [List.map_append, List.nodup_append]
      refine ⟨hnd, List.nodup_singleton _, ?_⟩
      intro x hx
      simp only [List.map_cons, List.map_nil, List.mem_singleton]
      intro hx1
      subst hx1
      obtain ⟨r, hr, hru⟩ := List.mem_map.mp hx
      rw [Bool.not_eq_true, List.any_eq_false] at hc
      have := hc r hr
      simp [hru] at this

/-- Witness for `add_download_url_unique`: an empty store and a concrete
URL. -/
theorem add_download_url_unique_witness :
    ∃ rows1, add_download (fun s => s) [] "pexels" "cats" "u1" = Except.ok rows1 ∧
      (rows1.filter (fun r => r.url_hash == (fun s : String => s) "u1")).length = 1 ∧
      (∀ r ∈ rows1, r.url_hash = (fun s : String => s) "u1" → r.status = "pending") ∧
      add_download (fun s => s) rows1 "pixabay" "dogs" "u1" = Except.error "DuplicateURL" ∧
      (rows1.map DownloadRow.url_hash).Nodup ∧
      (∀ (rows2 rows3 : List DownloadRow) (s3 t3 u3 : String),
        (rows2.map DownloadRow.url_hash).Nodup →
        add_download (fun s => s) rows2 s3 t3 u3 = Except.ok rows3 →
        (rows3.map DownloadRow.url_hash).Nodup) :=
  add_download_url_unique (fun s => s) [] "pexels" "cats" "u1" "pixabay" "dogs"
    (by simp) (by simp)

theorem check_rate_limit_increments (row : RateLimitRow) (now max_requests window_seconds : Nat)
    (hin : now - row.window_start ≤ window_seconds)
    (hlt : row.requests_count < max_requests) :
    check_rate_limit (some row) now max_requests window_seconds =
      (true, { row with requests_count := row.requests_count + 1, last_request := some now }) := by
  simp only [check_rate_limit, Option.getD_some]
  rw [if_neg (by omega), if_neg (by omega)]

theorem check_rate_limit_rejects (row : RateLimitRow) (now max_requests window_seconds : Nat)
    (hin : now - row.window_start ≤ window_seconds)
    (hge : max_requests ≤ row.requests_count) :
    check_rate_limit (some row) now max_requests window_seconds = (false, row) := by
  simp only [check_rate_limit, Option.getD_some]
  rw [if_neg (by omega), if_pos hge]

theorem check_rate_limit_resets (row : RateLimitRow) (now max_requests window_seconds : Nat)
    (hout : window_seconds < now - row.window_start) :
    check_rate_limit (some row) now max_requests window_seconds =
      (true, { requests_count := 1, window_start := now, last_request := some now }) := by
  simp only [check_rate_limit, Option.getD_some]
  rw [if_pos hout]

/-- C6: with `max_requests = 5` and `window_seconds = 60`, five calls inside
the window that opens at the first call all return `true`, incrementing the
counter to 5; a sixth call inside the window returns `false` and leaves the
row untouched; and a call issued 61 seconds after `window_start` returns
`true` and resets the row to count 1 with a fresh window start. -/
theorem check_rate_limit_window_semantics (t1 t2 t3 t4 t5 t6 : Nat)
    (h2 : t2 - t1 ≤ 60) (h3 : t3 - t1 ≤ 60) (h4 : t4 - t1 ≤ 60)
    (h5 : t5 - t1 ≤ 60) (h6 : t6 - t1 ≤ 60) :
    run_rate_limit none 5 60 [t1, t2, t3, t4, t5] =
      ([true, true, true, true, true],
        some { requests_count := 5, window_start := t1, last_request := some t5 }) ∧
    check_rate_limit (some { requests_count := 5, window_start := t1, last_request := some t5 })
        t6 5 60 =
      (false, { requests_count := 5, window_start := t1, last_request := some t5 }) ∧
    check_rate_limit (some { requests_count := 5, window_start := t1, last_request := some t5 })
        (t1 + 61) 5 60 =
      (true, { requests_count := 1, window_start := t1 + 61, last_request := some (t1 + 61) }) := by
  have hstep1 : check_rate_limit none t1 5 60 =
      (true, { requests_count := 1, window_start := t1, last_request := some t1 }) := by
    simp only [check_rate_limit, Option.getD_none]
    rw [if_neg (by omega), if_neg (by omega)]
  refine ⟨?_, ?_, ?_⟩
  · have e2 := check_rate_limit_increments
      { requests_count := 1, window_start := t1, last_request := some t1 } t2 5 60
      (by simpa using h2) (by simp)
    have e3 := check_rate_limit_increments
      { requests_count := 2, window_start := t1, last_request := some t2 } t3 5 60
      (by simpa using h3) (by simp)
    have e4 := check_rate_limit_increments
      { requests_count := 3, window_start := t1, last_request := some t3 } t4 5 60
      (by simpa using h4) (by simp)
    have e5 := check_rate_limit_increments
      { requests_count := 4, window_start := t1, last_request := some t4 } t5 5 60
      (by simpa using h5) (by simp)
    simp only [run_rate_limit, hstep1, e2, e3, e4, e5]
  · exact check_rate_limit_rejects _ t6 5 60 (by simpa using h6) (by simp)
  · exact check_rate_limit_resets _ (t1 + 61) 5 60 (by simp)

/-- Witness for `check_rate_limit_window_semantics` at concrete instants. -/
theorem check_rate_limit_window_semantics_witness :
    run_rate_limit none 5 60 [0, 10, 20, 30, 40] =
      ([true, true, true, true, true],
        some { requests_count := 5, window_start := 0, last_request := some 40 }) ∧
    check_rate_limit (some { requests_count := 5, window_start := 0, last_request := some 40 })
        50 5 60 =
      (false, { requests_count := 5, window_start := 0, last_request := some 40 }) ∧
    check_rate_limit (some { requests_count := 5, window_start := 0, last_request := some 40 })
        61 5 60 =
      (true, { requests_count := 1, window_start := 61, last_request := some 61 }) :=
  check_rate_limit_window_semantics 0 10 20 30 40 50
    (by decide) (by decide) (by decide) (by decide) (by decide)

/-- C4 counterexample: with the default 100 MB limit, a response that
declares no Content-Length but streams 104857601 bytes (one past the limit)
is not aborted: the task finishes `completed` and every byte stays on disk,
because the only size check compares the declared size before streaming and
the streaming loop performs no accumulated-size check. -/
theorem download_size_cx :
    (download_video_async 100 0 oversizedResponse true false).db_status =
      some DlStatus.completed ∧
    100 * 1024 * 1024 < (download_video_async 100 0 oversizedResponse true false).bytes_on_disk := by
  exact ⟨rfl, by decide⟩

/-- C4 amended: the size bound is enforced once, against the declared total
size, before streaming begins: if that declared size exceeds the configured
maximum the task transitions to `failed` with a "File too large" error (not a
`size_exceeded` reason) and no further bytes are written; if the declared
size is within the limit, the streaming loop writes every received chunk
with no accumulated-size check, so the bytes retained on disk are the resumed
prefix plus all streamed chunks even when that total exceeds the maximum. -/
theorem download_size_gate (max_file_size_mb existing_bytes : Nat) (resp : DlResponse)
    (valid is_dup_file : Bool)
    (h416 : ¬(0 < existing_bytes ∧ resp.status = 416))
    (hok : resp.status < 400) :
    (max_file_size_mb * 1024 * 1024 < declared_total_size resp (resumed_bytes existing_bytes resp) →
      download_video_async max_file_size_mb existing_bytes resp valid is_dup_file =
        { success := false, db_status := some (DlStatus.failed "File too large"),
          bytes_on_disk := resumed_bytes existing_bytes resp }) ∧
    (declared_total_size resp (resumed_bytes existing_bytes resp) ≤ max_file_size_mb * 1024 * 1024 →
      valid = true → is_dup_file = false →
      download_video_async max_file_size_mb existing_bytes resp valid is_dup_file =
        { success := true, db_status := some DlStatus.completed,
          bytes_on_disk := resumed_bytes existing_bytes resp + resp.chunks.sum }) := by
  constructor
  · intro hbig
    simp only [download_video_async]
    rw [if_neg h416, if_neg (by omega), if_pos hbig]
  · intro hsmall hv hd
    simp only [download_video_async]
    rw [if_neg h416, if_neg (by omega), if_neg (by omega)]
    subst hv hd
    simp

/-- Witness for `download_size_gate`: a response declaring 200 MB against the
default 100 MB limit is rejected before streaming. -/
theorem download_size_gate_witness :
    209715200 ≤ declared_total_size
      { status := 200, content_length := 209715200, content_range_total := none, chunks := [] }
      (resumed_bytes 0
        { status := 200, content_length := 209715200, content_range_total := none, chunks := [] }) ∧
    download_video_async 100 0
      { status := 200, content_length := 209715200, content_range_total := none, chunks := [] }
      true false =
      { success := false, db_status := some (DlStatus.failed "File too large"),
        bytes_on_disk := 0 } :=
  ⟨by decide,
    (download_size_gate 100 0
      { status := 200, content_length := 209715200, content_range_total := none, chunks := [] }
      true false (by decide) (by decide)).1 (by decide)⟩

/-- C5 counterexample: a concrete run's manifest has no `actual_count`,
`failed_count` or `duration_seconds` key at all — those counts live in the
in-memory `DownloadStats` and are only logged — while the keys the code does
write are present. -/
theorem manifest_missing_counts_cx :
    (build_manifest "cats" "20240101_000000" "all" "hd" "cats" []
        [(sampleCandidate, true)]).lookup "actual_count" = none ∧
    (build_manifest "cats" "20240101_000000" "all" "hd" "cats" []
        [(sampleCandidate, true)]).lookup "failed_count" = none ∧
    (build_manifest "cats" "20240101_000000" "all" "hd" "cats" []
        [(sampleCandidate, true)]).lookup "duration_seconds" = none ∧
    (build_manifest "cats" "20240101_000000" "all" "hd" "cats" []
        [(sampleCandidate, true)]).lookup "theme" = some (Json.str "cats") := by
  exact ⟨rfl, rfl, rfl, rfl⟩

theorem manifest_videos_length (safe_theme : String) :
    ∀ (results : List (MediaCandidate × Bool)) (n : Nat),
      ((List.enumFrom n results).filterMap (fun p =>
        if p.2.2 then some (Json.obj (manifest_video_entry safe_theme p.1 p.2.1)) else none)).length
        = (results.filter (fun r => r.2)).length := by
  intro results
  induction results with
  | nil => intro n; rfl
  | cons head tail ih =>
      intro n
      show (List.filterMap _ ((n, head) :: List.enumFrom (n + 1) tail)).length = _
      by_cases hb : head.2 = true <;>
        simp [List.filterMap_cons, List.filter_cons, hb, ih]

/-- C5 amended: every run dumps exactly one JSON document whose keys are
`theme`, `timestamp`, `sources`, `quality`, `filters` and `videos`; `videos`
holds one entry per completed download, each with exactly the fields
`filename`, `source`, `user`, `url`, `width`, `height`, `duration`; the run's
final counts (`actual_count`, `failed_count`, `duration_seconds`) are not part
of the manifest — they are tracked in `DownloadStats` and only logged. -/
theorem build_manifest_shape (theme timestamp sources quality safe_theme : String)
    (filters : List (String × Json)) (results : List (MediaCandidate × Bool)) :
    (build_manifest theme timestamp sources quality safe_theme filters results).map Prod.fst
      = ["theme", "timestamp", "sources", "quality", "filters", "videos"] ∧
    (∃ vids, (build_manifest theme timestamp sources quality safe_theme filters results).lookup
        "videos" = some (Json.arr vids) ∧
      vids.length = (results.filter (fun r => r.2)).length ∧
      ∀ v ∈ vids, ∃ kvs, v = Json.obj kvs ∧
        kvs.map Prod.fst =
          ["filename", "source", "user", "url", "width", "height", "duration"]) ∧
    (build_manifest theme timestamp sources quality safe_theme filters results).lookup
      "actual_count" = none := by
  refine ⟨rfl, ⟨(results.enum).filterMap (fun p =>
    if p.2.2 then some (Json.obj (manifest_video_entry safe_theme p.1 p.2.1)) else none),
    ?_, ?_, ?_⟩, rfl⟩
  · rfl
  · exact manifest_videos_length safe_theme results 0
  · intro v hv
    obtain ⟨p, _, hp⟩ := List.mem_filterMap.mp hv
    by_cases hb : p.2.2 = true
    · rw [if_pos hb] at hp
      obtain rfl : Json.obj (manifest_video_entry safe_theme p.1 p.2.1) = v := by
        simpa using hp
      exact ⟨manifest_video_entry safe_theme p.1 p.2.1, rfl, rfl⟩
    · rw [if_neg hb] at hp
      exact absurd hp (by simp)

theorem nextRunLoop_spec (cd : CronDict) :
    ∀ (fuel : Nat) (s t : DateTime), nextRunLoop cd fuel s = some t →
      ∃ k, k < fuel ∧ t = addMinutes s k ∧ CronParser.matches cd t = true ∧
        ∀ j < k, CronParser.matches cd (addMinutes s j) = false := by
  intro fuel
  induction fuel with
  | zero => intro s t h; exact absurd h (by simp [nextRunLoop])
  | succ fuel ih =>
      intro s t h
      simp only [nextRunLoop] at h
      by_cases hm : CronParser.matches cd s = true
      · rw [if_pos hm] at h
        obtain rfl : s = t := by simpa using h
        exact ⟨0, by omega, rfl, hm, fun j hj => absurd hj (Nat.not_lt_zero j)⟩
      · rw [if_neg hm] at h
        obtain ⟨k, hk, ht, hmt, hprev⟩ := ih (addOneMinute s) t h
        refine ⟨k + 1, by omega, ht, hmt, ?_⟩
        intro j hj
        cases j with
        | zero => exact Bool.eq_false_iff.mpr hm
        | succ j => exact hprev j (by omega)

theorem next_run_ok (expression : String) (after t : DateTime)
    (h : CronParser.next_run expression after = Except.ok t) :
    ∃ cd, CronParser.parse expression = Except.ok cd ∧
      nextRunLoop cd (365 * 24 * 60) (addOneMinute (truncToMinute after)) = some t := by
  unfold CronParser.next_run at h
  split at h
  · exact absurd h (by simp)
  · next cd hp =>
      split at h
      · next t2 hl =>
          obtain rfl : t2 = t := by simpa using h
          exact ⟨cd, hp, hl⟩
      · exact absurd h (by simp)

/-- C7: whenever `next_run` returns a datetime, it is obtained from the first
minute boundary strictly after `after` by fewer than a year's worth of
one-minute steps, it matches all five fields, and no earlier scanned minute
matches; a step field `*/N` matches exactly the values `v` with
`v % N = 0`; and concretely `next_run "0 2 * * *"` after 2024-01-01T01:59
is 2024-01-01T02:00 and `*/15` matches exactly the minutes 0, 15, 30, 45. -/
theorem next_run_first_match (expression : String) (after t : DateTime)
    (h : CronParser.next_run expression after = Except.ok t) :
    (∃ cd, CronParser.parse expression = Except.ok cd ∧
      CronParser.matches cd t = true ∧
      ∃ k, k < 365 * 24 * 60 ∧
        t = addMinutes (addOneMinute (truncToMinute after)) k ∧
        ∀ j < k,
          CronParser.matches cd (addMinutes (addOneMinute (truncToMinute after)) j) = false) ∧
    CronParser.next_run "0 2 * * *" ⟨2024, 1, 1, 1, 59, 0⟩ =
      Except.ok ⟨2024, 1, 1, 2, 0, 0⟩ ∧
    (List.range 60).filter (fun m => matches_field "*/15" m) = [0, 15, 30, 45] ∧
    (∀ (fv p s : String) (N v : Nat), fv ≠ "*" → strContains fv '/' = true →
      strSplitOn '/' fv = [p, s] → parseNat s = some N →
      (matches_field fv v = true ↔ v % N = 0)) := by
  refine ⟨?_, rfl, rfl, ?_⟩
  · obtain ⟨cd, hp, hl⟩ := next_run_ok expression after t h
    obtain ⟨k, hk, ht, hmt, hprev⟩ := nextRunLoop_spec cd _ _ _ hl
    exact ⟨cd, hp, hmt, k, hk, ht, hprev⟩
  · intro fv p s N v h1 h2 h3 h4
    simp only [matches_field]
    rw [if_neg h1, if_pos h2, h3]
    simp [h4]

/-- Witness for `next_run_first_match` at the spec's own example. -/
theorem next_run_first_match_witness :
    (∃ cd, CronParser.parse "0 2 * * *" = Except.ok cd ∧
      CronParser.matches cd ⟨2024, 1, 1, 2, 0, 0⟩ = true ∧
      ∃ k, k < 365 * 24 * 60 ∧
        (⟨2024, 1, 1, 2, 0, 0⟩ : DateTime) =
          addMinutes (addOneMinute (truncToMinute ⟨2024, 1, 1, 1, 59, 0⟩)) k ∧
        ∀ j < k,
          CronParser.matches cd
            (addMinutes (addOneMinute (truncToMinute ⟨2024, 1, 1, 1, 59, 0⟩)) j) = false) ∧
    CronParser.next_run "0 2 * * *" ⟨2024, 1, 1, 1, 59, 0⟩ =
      Except.ok ⟨2024, 1, 1, 2, 0, 0⟩ ∧
    (List.range 60).filter (fun m => matches_field "*/15" m) = [0, 15, 30, 45] ∧
    (∀ (fv p s : String) (N v : Nat), fv ≠ "*" → strContains fv '/' = true →
      strSplitOn '/' fv = [p, s] → parseNat s = some N →
      (matches_field fv v = true ↔ v % N = 0)) :=
  next_run_first_match "0 2 * * *" ⟨2024, 1, 1, 1, 59, 0⟩ ⟨2024, 1, 1, 2, 0, 0⟩ rfl

/-- C10: the fifth cron field is matched against `datetime.weekday()`
numbering, Monday = 0: any expression whose weekday field is the literal
`"0"` can only match datetimes falling on a Monday; 2024-01-01 is a Monday
and matches `* * * * 0`, while 2024-01-07, a Sunday (weekday 6), does not. -/
theorem cron_weekday_monday (cd : CronDict) (dt : DateTime)
    (hw : cd.weekday = "0") (h : CronParser.matches cd dt = true) :
    dt.weekday = 0 ∧
    DateTime.weekday ⟨2024, 1, 1, 0, 0, 0⟩ = 0 ∧
    CronParser.matches ⟨"*", "*", "*", "*", "0"⟩ ⟨2024, 1, 1, 3, 4, 0⟩ = true ∧
    CronParser.matches ⟨"*", "*", "*", "*", "0"⟩ ⟨2024, 1, 7, 3, 4, 0⟩ = false ∧
    DateTime.weekday ⟨2024, 1, 7, 0, 0, 0⟩ = 6 := by
  refine ⟨?_, by decide, by decide, by decide, by decide⟩
  simp only [CronParser.matches, Bool.and_eq_true] at h
  have h5 := h.2
  rw [hw] at h5
  have e : matches_field "0" dt.weekday = ((some 0 : Option Nat) == some dt.weekday) := rfl
  rw [e] at h5
  have h6 : (some 0 : Option Nat) = some dt.weekday := beq_iff_eq.mp h5
  exact (Option.some_inj.mp h6).symm

/-- Witness for `cron_weekday_monday` at `* * * * 0` on a Monday. -/
theorem cron_weekday_monday_witness :
    DateTime.weekday ⟨2024, 1, 1, 3, 4, 0⟩ = 0 ∧
    DateTime.weekday ⟨2024, 1, 1, 0, 0, 0⟩ = 0 ∧
    CronParser.matches ⟨"*", "*", "*", "*", "0"⟩ ⟨2024, 1, 1, 3, 4, 0⟩ = true ∧
    CronParser.matches ⟨"*", "*", "*", "*", "0"⟩ ⟨2024, 1, 7, 3, 4, 0⟩ = false ∧
    DateTime.weekday ⟨2024, 1, 7, 0, 0, 0⟩ = 6 :=
  cron_weekday_monday ⟨"*", "*", "*", "*", "0"⟩ ⟨2024, 1, 1, 3, 4, 0⟩ rfl (by decide)

/-- C8 counterexample: adding a cron job whose expression has only three
fields does not surface any error to the caller: `CronParser.parse` rejects
the expression, yet `add_job` stores the job (with `next_run = None`, the
parse error having been caught and logged inside `_calculate_next_run`) and
returns its id exactly as for a valid job. -/
theorem add_job_invalid_cron_cx :
    CronParser.parse "0 2 *" = Except.error "Invalid cron expression (must have 5 fields)" ∧
    (add_job [] badCronJob 1700000000 ⟨2024, 1, 1, 0, 0, 0⟩).1 =
      [("j1", { badCronJob with next_run := none })] ∧
    (add_job [] badCronJob 1700000000 ⟨2024, 1, 1, 0, 0, 0⟩).2 = "j1" :=
  ⟨rfl, rfl, rfl⟩

theorem next_run_parse_error (e : String) (now : DateTime) (msg : String)
    (hp : CronParser.parse e = Except.error msg) :
    CronParser.next_run e now = Except.error msg := by
  unfold CronParser.next_run
  rw [hp]

/-- C8 amended: an invalid cron expression is detected (and logged) inside
`_calculate_next_run` at add time, but no error reaches the caller: `add_job`
stores the job with `next_run = None` and returns its id normally, and a job
with `next_run = None` is simply never run by the scheduler loop
(`_should_run` is false), so the misconfiguration is silent. -/
theorem add_job_invalid_cron_accepted (jobs : List (String × ScheduledJob))
    (job : ScheduledJob) (now_epoch : Nat) (now : DateTime) (e msg : String)
    (hk : job.schedule_type = ScheduleType.CRON)
    (he : job.cron_expression = some e)
    (hp : CronParser.parse e = Except.error msg)
    (hid : job.id ≠ "") :
    (add_job jobs job now_epoch now).2 = job.id ∧
    (add_job jobs job now_epoch now).1 =
      (jobs.filter (fun p => p.1 != job.id)) ++ [(job.id, { job with next_run := none })] ∧
    (∀ n : DateTime, should_run { job with next_run := none } n = false) := by
  have hcalc : calculate_next_run job now = none := by
    simp only [calculate_next_run, hk, he, next_run_parse_error e now msg hp]
    rfl
  have heta : { job with id := job.id } = job := rfl
  have hmain : add_job jobs job now_epoch now =
      ((jobs.filter (fun p => p.1 != job.id)) ++ [(job.id, { job with next_run := none })],
        job.id) := by
    simp only [add_job, if_neg hid, heta, hcalc]
  rw [hmain]
  refine ⟨rfl, rfl, ?_⟩
  intro n
  cases henb : job.enabled <;> simp [should_run, henb]

/-- Witness for `add_job_invalid_cron_accepted` on the three-field job. -/
theorem add_job_invalid_cron_accepted_witness :
    (add_job [] badCronJob 1700000000 ⟨2024, 1, 1, 0, 0, 0⟩).2 = badCronJob.id ∧
    (add_job [] badCronJob 1700000000 ⟨2024, 1, 1, 0, 0, 0⟩).1 =
      (([] : List (String × ScheduledJob)).filter (fun p => p.1 != badCronJob.id)) ++
        [(badCronJob.id, { badCronJob with next_run := none })] ∧
    (∀ n : DateTime, should_run { badCronJob with next_run := none } n = false) :=
  add_job_invalid_cron_accepted [] badCronJob 1700000000 ⟨2024, 1, 1, 0, 0, 0⟩
    "0 2 *" "Invalid cron expression (must have 5 fields)" rfl rfl rfl (by decide)

end ImageFetcher

